import Mathlib

/-!
Verification of `logutils.py`: a shallow embedding of the database logging
handler (`DatabaseHandler`), its construction-time mapping validation, the
per-record parameter translation performed by `emit`, and the idempotent
file/stream logger attachment helpers (`setup_file_logger`,
`setup_stream_logger`).  Strings are modelled as Lean `String`s, Python
floats and datetimes carry rational payloads, exceptions are explicit
values, and the database connection/cursor collaborator is modelled by the
trace of calls `emit` makes on it.
-/

namespace Logutils

instance {ε α : Type} [DecidableEq ε] [DecidableEq α] :
    DecidableEq (Except ε α) := fun x y =>
  match x, y with
  | .ok a, .ok b =>
      if h : a = b then isTrue (by rw [h])
      else isFalse (by intro hc; cases hc; exact h rfl)
  | .ok _, .error _ => isFalse (by intro hc; cases hc)
  | .error _, .ok _ => isFalse (by intro hc; cases hc)
  | .error a, .error b =>
      if h : a = b then isTrue (by rw [h])
      else isFalse (by intro hc; cases hc; exact h rfl)

/-! ### Python string primitives, modelled over lists of characters -/

/-- The characters Python's `str.strip` removes (ASCII whitespace). -/
def pyIsSpace (c : Char) : Bool :=
  c = ' ' || c = '\t' || c = '\n' || c = '\r' || c = '\x0b' || c = '\x0c'

/-- Python `value.strip() == ""`: true iff every character is whitespace
(in particular true for the empty string). -/
def stripIsEmpty (s : String) : Bool := s.data.all pyIsSpace

/-- Python `str.lower` restricted to ASCII letters, which is all the
`LogRecord` attribute names contain. -/
def lowerChar (c : Char) : Char :=
  if 'A' ≤ c && c ≤ 'Z' then Char.ofNat (c.toNat + 32) else c

/-- Python `s.lower()` on ASCII strings. -/
def lowerString (s : String) : String := String.mk (s.data.map lowerChar)

/-- Split a character list on newline characters (`str.split` semantics:
the empty list yields one empty segment). -/
def splitNL : List Char → List (List Char)
  | [] => [[]]
  | c :: cs =>
    if c = '\n' then [] :: splitNL cs
    else
      match splitNL cs with
      | [] => [[c]]
      | l :: ls => (c :: l) :: ls

/-- Python `s.splitlines()` for strings whose line breaks are `\n`:
the empty string yields no lines, and a trailing newline does not produce a
trailing empty line. -/
def pySplitlines (s : String) : List String :=
  if s = "" then []
  else
    let parts := (splitNL s.data).map (fun l => String.mk l)
    if parts.getLast? = some "" then parts.dropLast else parts

/-- Code-point lexicographic order on character lists, as Python compares
strings. -/
def lexLe : List Char → List Char → Bool
  | [], _ => true
  | _ :: _, [] => false
  | a :: as, b :: bs =>
    if a.toNat < b.toNat then true
    else if b.toNat < a.toNat then false
    else lexLe as bs

/-- Python string comparison `a <= b`. -/
def strLe (a b : String) : Bool := lexLe a.data b.data

/-- `strLe` as a relation, for sorting and sortedness statements. -/
def strLeRel (a b : String) : Prop := strLe a b = true

instance : DecidableRel strLeRel := fun a b =>
  inferInstanceAs (Decidable (strLe a b = true))

/-- Python `sorted` on a list of strings. -/
def sortStrings (l : List String) : List String := List.insertionSort strLeRel l

/-! ### Values, parameters and log records -/

/-- A Python value as it can appear as a `LogRecord` attribute read by
`emit`.  The first five constructors are the types of the `isinstance`
pass-through check in `emit` (`str`, `int`, `float`, `NoneType`,
`datetime.datetime`); `other` is a value of any other type, carrying the
text its `str()` produces. -/
inductive Value where
  | str (s : String)
  | int (n : Int)
  | float (q : Rat)
  | none
  | datetime (t : Rat)
  | other (text : String)
deriving DecidableEq, Repr

/-- A translated SQL parameter: the `param_type` union in `emit`
(`str`, `int`, `float`, `None`, `datetime.datetime`). -/
inductive Param where
  | str (s : String)
  | int (n : Int)
  | float (q : Rat)
  | null
  | datetime (t : Rat)
deriving DecidableEq, Repr

/-- The structured view of a record's `exc_info` attribute when it is not
`None`: `hasAny` is Python's `any(record.exc_info)` (at least one truthy
element of the triple), and `formatted` is the text
`logging.Formatter().formatException(record.exc_info)` renders for it
(which carries no trailing newline). -/
structure ExcInfo where
  hasAny : Bool
  formatted : String
deriving DecidableEq, Repr

/-- A `logging.LogRecord` as `emit` reads it, after `self.format(record)`
ran: a finite attribute dictionary (`record.__dict__`) together with the
structured view of its `exc_info` attribute (`excInfo = Option.none` models
`record.exc_info is None`). -/
structure LogRecord where
  attrs : List (String × Value)
  excInfo : Option ExcInfo
deriving DecidableEq, Repr

/-- Python `getattr(record, name)`: `Option.none` models the
`AttributeError` raised when the attribute is missing. -/
def LogRecord.getattr (r : LogRecord) (name : String) : Option Value :=
  (r.attrs.find? (fun kv => kv.1 == name)).map (·.2)

/-! ### The record field model and the mapping table -/

/-- The attribute names of `logging.makeLogRecord({})` after
`logging.Formatter().format` ran over it, in `__dict__` insertion order:
the attributes CPython's `LogRecord.__init__` sets, plus `message`, which
`format` adds.  This is the blank-record sample the class body of
`DatabaseHandler` builds once per process. -/
def blankRecordAttrs : List String :=
  ["name", "msg", "args", "levelname", "levelno", "pathname", "filename",
   "module", "exc_info", "exc_text", "stack_info", "lineno", "funcName",
   "created", "msecs", "relativeCreated", "thread", "threadName",
   "processName", "process", "message"]

/-- `DatabaseHandler.default_mapping`, the class-body dict comprehension
over the blank record's attributes: keyed by the lower-cased attribute
name, valued by the original attribute name. -/
def defaultMapping : List (String × String) :=
  blankRecordAttrs.map (fun k => (lowerString k, k))

/-- `set(DatabaseHandler.default_mapping.values())`: the set a candidate
mapping's values are checked against in `__init__` — the original
(not lower-cased) attribute names. -/
def knownFieldNames : List String := defaultMapping.map (·.2)

/-- The set the specification describes for validation: the blank record's
attribute names case-normalized to lower case.  Stated from the spec's
words, for comparison with `knownFieldNames`, which is what the code uses. -/
def lowerCasedFieldNames : List String := blankRecordAttrs.map lowerString

/-- `LOG_TABLE_MAP`: the default table-column to record-attribute mapping,
in source order. -/
def LOG_TABLE_MAP : List (String × String) :=
  [("date", "created"), ("logger", "name"), ("module", "module"),
   ("func_name", "funcName"), ("line", "lineno"), ("level", "levelno"),
   ("level_name", "levelname"), ("message", "message"),
   ("traceback", "exc_info")]

/-! ### DatabaseHandler construction -/

/-- The handler state `__init__` stores (the connection and cursor
collaborators are modelled by the effect trace of `emit`, below). -/
structure DatabaseHandler where
  table : String
  mapping : List (String × String)
deriving DecidableEq, Repr

/-- `sorted(set(mapping.values()) - set(default_mapping.values()))`:
the unknown mapped field names, deduplicated and sorted. -/
def unknownFields (mapping : List (String × String)) : List String :=
  sortStrings (((mapping.map (·.2)).filter
    (fun v => decide (v ∉ knownFieldNames))).dedup)

/-- The `AttributeError` message `__init__` raises, pluralized when more
than one field name is offending, over the sorted deduplicated list. -/
def invalidMappingMessage (diff : List String) : String :=
  "'LogRecord' object has no attribute"
    ++ (if 1 < diff.length then "s" else "")
    ++ " "
    ++ String.intercalate ", " (diff.map (fun x => "'" ++ x ++ "'"))

/-- `DatabaseHandler.__init__(connection, table, mapping)`.  Python's
`mapping or LOG_TABLE_MAP` substitutes the default both for `None` and for
an empty mapping.  The `Except.error` carries the `AttributeError`
message. -/
def DatabaseHandler.init (table : String)
    (mapping : Option (List (String × String))) :
    Except String DatabaseHandler :=
  let m := match mapping with
    | Option.some l => if l = [] then LOG_TABLE_MAP else l
    | Option.none => LOG_TABLE_MAP
  let diff := unknownFields m
  if diff = [] then Except.ok ⟨table, m⟩
  else Except.error (invalidMappingMessage diff)

/-! ### emit -/

/-- A Python exception value, tagged by class. -/
inductive PyExc where
  | attributeError (msg : String)
  | typeError (msg : String)
  | valueError (msg : String)
  | databaseError (msg : String)
deriving DecidableEq, Repr

/-- The line rendering a `PyExc` in a traceback. -/
def pyExcText : PyExc → String
  | .attributeError m => "AttributeError: " ++ m
  | .typeError m => "TypeError: " ++ m
  | .valueError m => "ValueError: " ++ m
  | .databaseError m => "Error: " ++ m

/-- The text `traceback.print_exc(file=sys.stderr)` writes for a caught
exception: always at least the header line and the exception line. -/
def excDiagnostic (e : PyExc) : List String :=
  ["Traceback (most recent call last):", pyExcText e]

/-- `self.insert_query.format(...)`: the INSERT statement built from the
table name and the mapping's column names (one positional `?` placeholder
per column). -/
def insertQuery (table : String) (cols : List String) : String :=
  "INSERT INTO " ++ table ++ " (" ++ String.intercalate ", " cols
    ++ ") VALUES ("
    ++ String.intercalate ", " (List.replicate cols.length "?") ++ ");"

/-- One iteration of the parameter loop in `emit`:
`value = getattr(record, attr)` followed by the coercion ladder —
`created` becomes a datetime, the exception columns become the formatted
traceback joined with `|` (or `None`), whole-whitespace strings become
`None`, values of the pass-through types are kept, anything else is
stringified. -/
def translateParam (record : LogRecord) (attr : String) : Except PyExc Param :=
  match record.getattr attr with
  | Option.none =>
      Except.error (.attributeError
        ("'LogRecord' object has no attribute '" ++ attr ++ "'"))
  | Option.some value =>
    if attr = "created" then
      match value with
      | .float q => Except.ok (.datetime q)
      | .int n => Except.ok (.datetime (n : Rat))
      | _ => Except.error (.typeError "fromtimestamp requires a number")
    else if attr = "exc_info" ∨ attr = "exc_text" then
      match record.excInfo with
      | Option.some e =>
          if e.hasAny then
            Except.ok (.str (String.intercalate "|" (pySplitlines e.formatted)))
          else Except.ok Param.null
      | Option.none => Except.ok Param.null
    else
      match value with
      | .str s => if stripIsEmpty s then Except.ok Param.null
                  else Except.ok (.str s)
      | .int n => Except.ok (.int n)
      | .float q => Except.ok (.float q)
      | .none => Except.ok Param.null
      | .datetime t => Except.ok (.datetime t)
      | .other text => Except.ok (.str text)

/-- The whole parameter loop: one translated parameter per mapping entry,
in mapping order, over the mapping's attribute names. -/
def translateParams (h : DatabaseHandler) (r : LogRecord) :
    Except PyExc (List Param) :=
  h.mapping.mapM (fun kv => translateParam r kv.2)

/-- The failure behaviour of `emit`'s external collaborators on one call:
whether `self.format(record)`, `self.cursor.execute(...)` and
`self.cursor.commit()` raise, and with what exception. -/
structure EmitEnv where
  formatRaises : Option PyExc
  executeRaises : Option PyExc
  commitRaises : Option PyExc
deriving DecidableEq, Repr

/-- A call `emit` makes on the cursor it obtained from the connection. -/
inductive DbEffect where
  | execute (query : String) (params : List Param)
  | commit
deriving DecidableEq, Repr

/-- What one `emit` call looks like from the outside: the exception (if
any) escaping to the caller, the lines written to standard error, and the
calls made on the cursor. -/
structure EmitResult where
  escaped : Option PyExc
  stderrLines : List String
  effects : List DbEffect
deriving DecidableEq, Repr

/-- The `try` block of `emit`, in source order: format, build the query,
translate the parameters, execute, commit.  An error carries the raised
exception together with the cursor calls already performed (a raising
`execute` is modelled as performing no effect). -/
def DatabaseHandler.emitTry (h : DatabaseHandler) (env : EmitEnv)
    (r : LogRecord) : Except (PyExc × List DbEffect) (List DbEffect) :=
  match env.formatRaises with
  | Option.some e => Except.error (e, [])
  | Option.none =>
    let query := insertQuery h.table (h.mapping.map (·.1))
    match translateParams h r with
    | Except.error e => Except.error (e, [])
    | Except.ok params =>
      match env.executeRaises with
      | Option.some e => Except.error (e, [])
      | Option.none =>
        match env.commitRaises with
        | Option.some e => Except.error (e, [DbEffect.execute query params])
        | Option.none =>
            Except.ok [DbEffect.execute query params, DbEffect.commit]

/-- `DatabaseHandler.emit`: the `try` block wrapped in
`except Exception: traceback.print_exc(file=sys.stderr)` — a caught
exception is never re-raised; its traceback goes to standard error. -/
def DatabaseHandler.emit (h : DatabaseHandler) (env : EmitEnv)
    (r : LogRecord) : EmitResult :=
  match h.emitTry env r with
  | Except.ok effs =>
      { escaped := Option.none, stderrLines := [], effects := effs }
  | Except.error (e, effs) =>
      { escaped := Option.none, stderrLines := excDiagnostic e,
        effects := effs }

/-! ### File and stream logger attachment -/

/-- A handler attached to a logger, tagged by its class.  In the host
library `FileHandler` subclasses `StreamHandler`; `DatabaseHandler`
subclasses plain `Handler`.  A file handler stores its `baseFilename`
(the path resolved by `os.path.abspath` at construction); a stream handler
stores the identity of its target stream.  Handler levels and formatters
are configured by the setup helpers but play no role in the duplicate
scan, so they are not recorded. -/
inductive Handler where
  | file (baseFilename : String)
  | stream (streamId : Nat)
  | database (table : String)
deriving DecidableEq, Repr

/-- `isinstance(h, logging.FileHandler)`. -/
def Handler.isFileHandler : Handler → Bool
  | .file _ => true
  | _ => false

/-- `isinstance(h, logging.StreamHandler)`: true for file handlers too,
because `FileHandler` is a subclass of `StreamHandler`. -/
def Handler.isStreamHandler : Handler → Bool
  | .file _ => true
  | .stream _ => true
  | _ => false

/-- A logger: its level and its attached handlers, in attachment order. -/
structure Logger where
  level : Nat
  handlers : List Handler
deriving DecidableEq, Repr

/-- The identity of `sys.stderr`, the default stream of
`logging.StreamHandler`. -/
def stderrStreamId : Nat := 0

/-- `setup_file_logger(filename, ...)` acting on the resolved logger:
set the level when one is given, return unchanged if some attached file
handler's `baseFilename` equals the `filename` argument, otherwise attach
a new file handler whose `baseFilename` is the resolved path.  `resolve`
models `os.path.abspath`, which `logging.FileHandler` applies to the path
it is given.  The file mode, encoding, handler level and format string
configure the new handler but are not part of the duplicate scan. -/
def setup_file_logger (resolve : String → String) (filename : String)
    (levelLogger : Option Nat) (log : Logger) : Logger :=
  let log := match levelLogger with
    | Option.some lvl => { log with level := lvl }
    | Option.none => log
  if log.handlers.any (fun h => match h with
      | Handler.file base => base == filename
      | _ => false) then
    log
  else
    { log with handlers := log.handlers ++ [Handler.file (resolve filename)] }

/-- `setup_stream_logger(name, stream, ...)` acting on the resolved
logger: set the level when one is given, return unchanged if any attached
handler is a stream handler (regardless of its target stream), otherwise
attach a new stream handler on the given stream, defaulting to
`sys.stderr`. -/
def setup_stream_logger (stream : Option Nat) (levelLogger : Option Nat)
    (log : Logger) : Logger :=
  let log := match levelLogger with
    | Option.some lvl => { log with level := lvl }
    | Option.none => log
  if log.handlers.any Handler.isStreamHandler then log
  else
    { log with
        handlers := log.handlers
          ++ [Handler.stream (stream.getD stderrStreamId)] }

/-! ### Concrete sample data used by the witnesses -/

/-- A representative formatted record carrying no exception info. -/
def sampleRecord : LogRecord :=
  { attrs := [("name", Value.str "app"), ("msg", Value.str "hello"),
      ("levelname", Value.str "INFO"), ("levelno", Value.int 20),
      ("module", Value.str "mod"), ("funcName", Value.str "run"),
      ("lineno", Value.int 42), ("created", Value.float 1700000000),
      ("message", Value.str "hello"), ("exc_info", Value.none)],
    excInfo := Option.none }

/-- The record above, with a raised-exception triple attached. -/
def excRecord : LogRecord :=
  { attrs := [("name", Value.str "app"), ("levelno", Value.int 20),
      ("created", Value.float 1700000000),
      ("message", Value.str "boom"), ("exc_info", Value.other "(...)")],
    excInfo := Option.some
      { hasAny := true,
        formatted :=
          "Traceback (most recent call last):\n  boom\nValueError: boom" } }

/-- A record with whitespace-only and non-whitespace string fields. -/
def spacesRecord : LogRecord :=
  { attrs := [("name", Value.str "   "), ("message", Value.str "  ok  ")],
    excInfo := Option.none }

/-- A collaborator environment in which nothing raises. -/
def okEnv : EmitEnv :=
  { formatRaises := Option.none, executeRaises := Option.none,
    commitRaises := Option.none }

/-- A collaborator environment in which `cursor.execute` raises. -/
def failEnv : EmitEnv :=
  { formatRaises := Option.none,
    executeRaises := Option.some (PyExc.databaseError "connection lost"),
    commitRaises := Option.none }

/-- The handler of the spec's column-ordering example: table `T`, mapping
date to created and level to levelno. -/
def orderHandler : DatabaseHandler :=
  ⟨"T", [("date", "created"), ("level", "levelno")]⟩

/-!
## Helper lemmas
-/

theorem lexLe_total (a b : List Char) : lexLe a b = true ∨ lexLe b a = true := by
  induction a generalizing b with
  | nil => left; rfl
  | cons x xs ih =>
    cases b with
    | nil => right; rfl
    | cons y ys =>
      simp only [lexLe]
      rcases Nat.lt_trichotomy x.toNat y.toNat with h | h | h
      · left; simp [h]
      · have hxy : ¬ x.toNat < y.toNat := by omega
        have hyx : ¬ y.toNat < x.toNat := by omega
        rcases ih ys with h2 | h2
        · left; simp [hxy, hyx, h2]
        · right; simp [hxy, hyx, h2]
      · right; simp [h]

theorem lexLe_trans {a b c : List Char} (h1 : lexLe a b = true)
    (h2 : lexLe b c = true) : lexLe a c = true := by
  induction a generalizing b c with
  | nil => rfl
  | cons x xs ih =>
    cases b with
    | nil => simp [lexLe] at h1
    | cons y ys =>
      cases c with
      | nil => simp [lexLe] at h2
      | cons z zs =>
        simp only [lexLe] at h1 h2 ⊢
        rcases Nat.lt_trichotomy x.toNat z.toNat with h | h | h
        · simp [h]
        · have hxz : ¬ x.toNat < z.toNat := by omega
          have hzx : ¬ z.toNat < x.toNat := by omega
          simp only [hxz, hzx, if_false, if_true]
          by_cases hxy : x.toNat < y.toNat
          · by_cases hyz : y.toNat < z.toNat
            · omega
            · by_cases hzy : z.toNat < y.toNat
              · simp [hyz, hzy] at h2
              · omega
          · by_cases hyx : y.toNat < x.toNat
            · simp [hxy, hyx] at h1
            · by_cases hyz : y.toNat < z.toNat
              · omega
              · by_cases hzy : z.toNat < y.toNat
                · omega
                · simp only [hxy, hyx, if_false] at h1
                  simp only [hyz, hzy, if_false] at h2
                  exact ih h1 h2
        · exfalso
          by_cases hxy : x.toNat < y.toNat
          · by_cases hyz : y.toNat < z.toNat
            · omega
            · by_cases hzy : z.toNat < y.toNat
              · simp [hyz, hzy] at h2
              · omega
          · by_cases hyx : y.toNat < x.toNat
            · simp [hxy, hyx] at h1
            · by_cases hyz : y.toNat < z.toNat
              · omega
              · by_cases hzy : z.toNat < y.toNat
                · simp [hyz, hzy] at h2
                · omega

theorem sortStrings_sorted (l : List String) :
    (sortStrings l).Sorted strLeRel := by
  haveI : IsTotal String strLeRel := ⟨fun a b => lexLe_total a.data b.data⟩
  haveI : IsTrans String strLeRel := ⟨fun _ _ _ h1 h2 => lexLe_trans h1 h2⟩
  exact List.sorted_insertionSort strLeRel l

theorem sortStrings_perm (l : List String) : (sortStrings l).Perm l :=
  List.perm_insertionSort strLeRel l

theorem sortStrings_eq_nil (l : List String) : sortStrings l = [] ↔ l = [] := by
  constructor
  · intro h
    have hp := sortStrings_perm l
    rw [h] at hp
    exact hp.symm.eq_nil
  · intro h
    subst h
    rfl

theorem unknownFields_eq_nil (m : List (String × String)) :
    unknownFields m = [] ↔ ∀ v ∈ m.map (·.2), v ∈ knownFieldNames := by
  unfold unknownFields
  rw [sortStrings_eq_nil, List.dedup_eq_nil, List.filter_eq_nil_iff]
  simp only [decide_eq_true_eq, not_not]

theorem unknownFields_sorted (m : List (String × String)) :
    (unknownFields m).Sorted strLeRel :=
  sortStrings_sorted _

theorem unknownFields_nodup (m : List (String × String)) :
    (unknownFields m).Nodup :=
  (sortStrings_perm _).nodup_iff.mpr (List.nodup_dedup _)

theorem unknownFields_mem (m : List (String × String)) (x : String) :
    x ∈ unknownFields m ↔ x ∈ m.map (·.2) ∧ x ∉ knownFieldNames := by
  unfold unknownFields
  rw [(sortStrings_perm _).mem_iff, List.mem_dedup, List.mem_filter]
  simp only [decide_eq_true_eq]

theorem init_some_isOk (table : String) (m : List (String × String)) :
    (DatabaseHandler.init table (Option.some m)).isOk = true ↔
      ∀ v ∈ m.map (·.2), v ∈ knownFieldNames := by
  by_cases hm : m = []
  · subst hm
    have hdef : unknownFields LOG_TABLE_MAP = [] := by decide
    simp [DatabaseHandler.init, hdef, Except.isOk, Except.toBool, Except.toBool]
  · constructor
    · intro h
      by_cases hd : unknownFields m = []
      · exact (unknownFields_eq_nil m).mp hd
      · exfalso
        simp [DatabaseHandler.init, hm, hd, Except.isOk, Except.toBool, Except.toBool] at h
    · intro h
      have hd : unknownFields m = [] := (unknownFields_eq_nil m).mpr h
      simp [DatabaseHandler.init, hm, hd, Except.isOk, Except.toBool, Except.toBool]

theorem init_some_error (table : String) (m : List (String × String))
    (hex : ∃ v ∈ m.map (·.2), v ∉ knownFieldNames) :
    DatabaseHandler.init table (Option.some m)
      = Except.error (invalidMappingMessage (unknownFields m)) := by
  obtain ⟨v, hv, hnv⟩ := hex
  have hm : m ≠ [] := by
    intro h
    subst h
    simp at hv
  have hd : unknownFields m ≠ [] := by
    intro h
    exact hnv ((unknownFields_eq_nil m).mp h v hv)
  simp [DatabaseHandler.init, hm, hd]

theorem emit_escaped_eq_none (h : DatabaseHandler) (env : EmitEnv)
    (r : LogRecord) : (h.emit env r).escaped = Option.none := by
  unfold DatabaseHandler.emit
  cases hE : h.emitTry env r with
  | ok effs => rfl
  | error p => cases p with | mk e effs => rfl

theorem emitTry_eq_ok_iff (h : DatabaseHandler) (env : EmitEnv)
    (r : LogRecord) :
    (∃ effs, h.emitTry env r = Except.ok effs) ↔
      env.formatRaises = Option.none
        ∧ (∃ ps, translateParams h r = Except.ok ps)
        ∧ env.executeRaises = Option.none
        ∧ env.commitRaises = Option.none := by
  unfold DatabaseHandler.emitTry
  cases hF : env.formatRaises <;> cases hT : translateParams h r <;>
    cases hE : env.executeRaises <;> cases hC : env.commitRaises <;> simp

theorem emit_of_success (h : DatabaseHandler) (env : EmitEnv) (r : LogRecord)
    (params : List Param)
    (hf : env.formatRaises = Option.none)
    (he : env.executeRaises = Option.none)
    (hc : env.commitRaises = Option.none)
    (ht : translateParams h r = Except.ok params) :
    h.emit env r =
      { escaped := Option.none, stderrLines := [],
        effects := [DbEffect.execute
            (insertQuery h.table (h.mapping.map (·.1))) params,
          DbEffect.commit] } := by
  have hE : h.emitTry env r = Except.ok
      [DbEffect.execute (insertQuery h.table (h.mapping.map (·.1))) params,
       DbEffect.commit] := by
    unfold DatabaseHandler.emitTry
    rw [hf, ht, he, hc]
  unfold DatabaseHandler.emit
  rw [hE]

theorem setup_file_handlers_of_found (resolve : String → String)
    (f : String) (l : Option Nat) (L : Logger)
    (hfound : L.handlers.any (fun h => match h with
        | Handler.file base => base == f
        | _ => false) = true) :
    (setup_file_logger resolve f l L).handlers = L.handlers := by
  cases l <;> simp [setup_file_logger, hfound]

theorem setup_file_handlers_of_not_found (resolve : String → String)
    (f : String) (l : Option Nat) (L : Logger)
    (hnf : L.handlers.any (fun h => match h with
        | Handler.file base => base == f
        | _ => false) = false) :
    (setup_file_logger resolve f l L).handlers
      = L.handlers ++ [Handler.file (resolve f)] := by
  cases l <;> simp [setup_file_logger, hnf]

theorem setup_stream_handlers_of_found (s : Option Nat) (l : Option Nat)
    (L : Logger)
    (hfound : L.handlers.any Handler.isStreamHandler = true) :
    (setup_stream_logger s l L).handlers = L.handlers := by
  cases l <;> simp [setup_stream_logger, hfound]

theorem setup_stream_handlers_of_not_found (s : Option Nat) (l : Option Nat)
    (L : Logger)
    (hnf : L.handlers.any Handler.isStreamHandler = false) :
    (setup_stream_logger s l L).handlers
      = L.handlers ++ [Handler.stream (s.getD stderrStreamId)] := by
  cases l <;> simp [setup_stream_logger, hnf]

/-!
## Claims
-/

/-- C1: for every record and every exception raised inside `emit` by the
connection's `execute` (or by formatting, translation, or commit), `emit`
returns normally — no exception escapes to the caller — and a diagnostic
of the failure is written to the standard error stream. -/
theorem emit_isolates_failures (h : DatabaseHandler) (env : EmitEnv)
    (r : LogRecord) :
    (h.emit env r).escaped = Option.none ∧
      ((env.formatRaises.isSome = true ∨ env.executeRaises.isSome = true
          ∨ env.commitRaises.isSome = true
          ∨ ∃ e, translateParams h r = Except.error e) →
        (h.emit env r).stderrLines ≠ []) := by
  refine ⟨emit_escaped_eq_none h env r, ?_⟩
  intro hfail
  have herr : ∃ e effs, h.emitTry env r = Except.error (e, effs) := by
    cases hE : h.emitTry env r with
    | error p =>
      obtain ⟨e, effs⟩ := p
      exact ⟨e, effs, rfl⟩
    | ok effs =>
      exfalso
      obtain ⟨hf, ⟨ps, hps⟩, he, hc⟩ :=
        (emitTry_eq_ok_iff h env r).mp ⟨effs, hE⟩
      rcases hfail with hF | hF | hF | ⟨e, hT⟩
      · rw [hf] at hF
        simp at hF
      · rw [he] at hF
        simp at hF
      · rw [hc] at hF
        simp at hF
      · rw [hps] at hT
        simp at hT
  obtain ⟨e, effs, hE⟩ := herr
  simp [DatabaseHandler.emit, hE, excDiagnostic]

/-- C1 witness: with an execute that raises, the concrete emit call returns
normally and writes a diagnostic to standard error. -/
theorem emit_isolates_failures_witness :
    ((DatabaseHandler.mk "T" LOG_TABLE_MAP).emit failEnv sampleRecord).escaped
        = Option.none ∧
      ((DatabaseHandler.mk "T" LOG_TABLE_MAP).emit failEnv
          sampleRecord).stderrLines ≠ [] := by
  have h := emit_isolates_failures (DatabaseHandler.mk "T" LOG_TABLE_MAP)
    failEnv sampleRecord
  exact ⟨h.1, h.2 (Or.inr (Or.inl (by decide)))⟩

/-- C2: construction succeeds for every mapping whose values are exposed
record field names; a mapping with unknown field names fails with an error
message over exactly the unknown names, sorted, deduplicated, and
pluralized when more than one (the pluralization is part of
`invalidMappingMessage`). -/
theorem init_mapping_validation :
    (∀ (table : String) (m : List (String × String)),
        (∀ v ∈ m.map (·.2), v ∈ knownFieldNames) →
          (DatabaseHandler.init table (Option.some m)).isOk = true) ∧
      ∀ (table : String) (m : List (String × String)),
        (∃ v ∈ m.map (·.2), v ∉ knownFieldNames) →
          ∃ l, DatabaseHandler.init table (Option.some m)
                = Except.error (invalidMappingMessage l)
            ∧ l.Sorted strLeRel ∧ l.Nodup
            ∧ ∀ x, x ∈ l ↔ x ∈ m.map (·.2) ∧ x ∉ knownFieldNames := by
  constructor
  · intro table m hsub
    exact (init_some_isOk table m).mpr hsub
  · intro table m hex
    exact ⟨unknownFields m, init_some_error table m hex,
      unknownFields_sorted m, unknownFields_nodup m,
      fun x => unknownFields_mem m x⟩

/-- C2 witness: a valid concrete mapping constructs, and a concrete mapping
with duplicate unknown names fails with the sorted deduplicated error
list. -/
theorem init_mapping_validation_witness :
    (DatabaseHandler.init "events"
        (Option.some [("date", "created")])).isOk = true ∧
      ∃ l, DatabaseHandler.init "events"
            (Option.some [("c", "nope"), ("d", "zz"), ("e", "nope")])
            = Except.error (invalidMappingMessage l)
        ∧ l.Sorted strLeRel ∧ l.Nodup
        ∧ ∀ x, x ∈ [("c", "nope"), ("d", "zz"), ("e", "nope")].map
              (fun kv => kv.2) ∧ x ∉ knownFieldNames ↔
            x ∈ l ∧ True := by
  constructor
  · exact init_mapping_validation.1 "events" [("date", "created")] (by decide)
  · obtain ⟨l, h1, h2, h3, h4⟩ := init_mapping_validation.2 "events"
      [("c", "nope"), ("d", "zz"), ("e", "nope")] ⟨"nope", by decide, by decide⟩
    exact ⟨l, h1, h2, h3, fun x => by rw [h4 x]; tauto⟩

/-- C3: when translation and the collaborators succeed, emit executes the
INSERT statement with the parameters bound positionally in mapping order
and then performs exactly one commit on the cursor before returning. -/
theorem emit_executes_then_commits_once (h : DatabaseHandler) (env : EmitEnv)
    (r : LogRecord) (params : List Param)
    (hf : env.formatRaises = Option.none)
    (he : env.executeRaises = Option.none)
    (hc : env.commitRaises = Option.none)
    (ht : translateParams h r = Except.ok params) :
    (h.emit env r).effects
        = [DbEffect.execute (insertQuery h.table (h.mapping.map (·.1)))
             params,
           DbEffect.commit]
      ∧ (h.emit env r).escaped = Option.none
      ∧ (h.emit env r).effects.countP (fun eff => match eff with
          | DbEffect.commit => true
          | _ => false) = 1 := by
  rw [emit_of_success h env r params hf he hc ht]
  refine ⟨rfl, rfl, ?_⟩
  simp [List.countP_cons, List.countP_nil]

/-- C3 witness: the default-mapping handler on a concrete record executes
the statement with the nine translated parameters and commits once. -/
theorem emit_executes_then_commits_once_witness :
    ((DatabaseHandler.mk "T" LOG_TABLE_MAP).emit okEnv sampleRecord).effects
        = [DbEffect.execute
             (insertQuery "T" (LOG_TABLE_MAP.map (·.1)))
             [Param.datetime 1700000000, Param.str "app", Param.str "mod",
              Param.str "run", Param.int 42, Param.int 20, Param.str "INFO",
              Param.str "hello", Param.null],
           DbEffect.commit]
      ∧ ((DatabaseHandler.mk "T" LOG_TABLE_MAP).emit okEnv
            sampleRecord).escaped = Option.none
      ∧ ((DatabaseHandler.mk "T" LOG_TABLE_MAP).emit okEnv
            sampleRecord).effects.countP (fun eff => match eff with
          | DbEffect.commit => true
          | _ => false) = 1 :=
  emit_executes_then_commits_once (DatabaseHandler.mk "T" LOG_TABLE_MAP)
    okEnv sampleRecord
    [Param.datetime 1700000000, Param.str "app", Param.str "mod",
     Param.str "run", Param.int 42, Param.int 20, Param.str "INFO",
     Param.str "hello", Param.null]
    rfl rfl rfl (by decide)

/-- C4 counterexample: `funcName` passes construction-time validation even
though it is not in the lower-cased attribute-name set, so a mapping value
does not pass validation exactly when it belongs to the lower-cased set. -/
theorem validation_set_not_lowercased :
    (DatabaseHandler.init "t"
        (Option.some [("c", "funcName")])).isOk = true ∧
      "funcName" ∉ lowerCasedFieldNames := by
  constructor
  · decide
  · decide

/-- C4 (amended): the validation set is computed once from the blank
formatted record, as a dictionary keyed by the lower-cased attribute names
whose values are the original names; a mapping value passes validation
exactly when it belongs to the set of original (not lower-cased) attribute
names. -/
theorem validation_set_original_names (table : String)
    (m : List (String × String)) :
    (DatabaseHandler.init table (Option.some m)).isOk = true ↔
      ∀ v ∈ m.map (·.2), v ∈ knownFieldNames :=
  init_some_isOk table m

/-- C5: for a record with a non-empty exception triple, the exception
column's parameter is the formatted traceback with newlines replaced by
the bar delimiter; for a record with no exception info (absent or
all-empty triple), it is null. -/
theorem translate_exc_column (r : LogRecord) (attr : String)
    (hattr : attr = "exc_info" ∨ attr = "exc_text")
    (hget : (r.getattr attr).isSome = true) :
    translateParam r attr =
      Except.ok (match r.excInfo with
        | Option.some e =>
            if e.hasAny then
              Param.str (String.intercalate "|" (pySplitlines e.formatted))
            else Param.null
        | Option.none => Param.null) := by
  obtain ⟨v, hv⟩ := Option.isSome_iff_exists.mp hget
  rcases hattr with h | h <;> subst h
  all_goals
    cases hEI : r.excInfo with
    | some e => cases hA : e.hasAny <;> simp [translateParam, hv, hEI, hA]
    | none => simp [translateParam, hv, hEI]

/-- C5 witness: a concrete three-line traceback is flattened with bars,
and a record whose exc_info is None yields a null parameter. -/
theorem translate_exc_column_witness :
    translateParam excRecord "exc_info"
        = Except.ok (Param.str
            "Traceback (most recent call last):|  boom|ValueError: boom") ∧
      translateParam sampleRecord "exc_info" = Except.ok Param.null := by
  constructor
  · exact translate_exc_column excRecord "exc_info" (Or.inl rfl) (by decide)
  · exact translate_exc_column sampleRecord "exc_info" (Or.inl rfl) (by decide)

/-- C6: for every table name and mapping, the executed statement text is
exactly the INSERT template with the comma-joined column names in mapping
order and one question-mark placeholder per column, with the parameter
list bound in that same order. -/
theorem insert_statement_text (h : DatabaseHandler) (env : EmitEnv)
    (r : LogRecord) (params : List Param)
    (hf : env.formatRaises = Option.none)
    (he : env.executeRaises = Option.none)
    (hc : env.commitRaises = Option.none)
    (ht : translateParams h r = Except.ok params) :
    (h.emit env r).effects.head?
      = Option.some (DbEffect.execute
          ("INSERT INTO " ++ h.table ++ " ("
            ++ String.intercalate ", " (h.mapping.map (·.1))
            ++ ") VALUES ("
            ++ String.intercalate ", "
                 (List.replicate (h.mapping.map (·.1)).length "?")
            ++ ");") params) := by
  rw [emit_of_success h env r params hf he hc ht]
  rfl

/-- C6 witness: for mapping date-created, level-levelno on table `T` the
executed statement is exactly the spec's literal, with the parameters in
that order. -/
theorem insert_statement_text_witness :
    (orderHandler.emit okEnv sampleRecord).effects.head?
      = Option.some (DbEffect.execute
          "INSERT INTO T (date, level) VALUES (?, ?);"
          [Param.datetime 1700000000, Param.int 20]) :=
  insert_statement_text orderHandler okEnv sampleRecord
    [Param.datetime 1700000000, Param.int 20] rfl rfl rfl (by decide)

/-- C7: attaching a file handler twice with the same resolved path to the
same logger leaves exactly one attached file handler; the second call
returns without modification. -/
theorem attach_file_idempotent (resolve : String → String) (p : String)
    (l1 l2 : Option Nat) (lvl : Nat) (hres : resolve p = p) :
    (setup_file_logger resolve p l2
        (setup_file_logger resolve p l1 (Logger.mk lvl []))).handlers
        = (setup_file_logger resolve p l1 (Logger.mk lvl [])).handlers
      ∧ (setup_file_logger resolve p l2
          (setup_file_logger resolve p l1 (Logger.mk lvl []))).handlers
        = [Handler.file p]
      ∧ (setup_file_logger resolve p l2
          (setup_file_logger resolve p l1
            (Logger.mk lvl []))).handlers.countP Handler.isFileHandler
        = 1 := by
  have h1 : (setup_file_logger resolve p l1 (Logger.mk lvl [])).handlers
      = [Handler.file p] := by
    have := setup_file_handlers_of_not_found resolve p l1 (Logger.mk lvl [])
      rfl
    rw [hres] at this
    simpa using this
  have hf : (setup_file_logger resolve p l1
      (Logger.mk lvl [])).handlers.any (fun h => match h with
        | Handler.file base => base == p
        | _ => false) = true := by
    rw [h1]
    simp
  have h2 := setup_file_handlers_of_found resolve p l2
    (setup_file_logger resolve p l1 (Logger.mk lvl [])) hf
  refine ⟨h2, h2.trans h1, ?_⟩
  rw [h2, h1]
  simp [List.countP_cons, List.countP_nil, Handler.isFileHandler]

/-- C7 witness: two concrete attachments of the same already-resolved path
leave a single file handler. -/
theorem attach_file_idempotent_witness :
    (setup_file_logger (fun s => s) "/var/log/app.log" Option.none
        (setup_file_logger (fun s => s) "/var/log/app.log" (Option.some 10)
          (Logger.mk 30 []))).handlers
        = (setup_file_logger (fun s => s) "/var/log/app.log" (Option.some 10)
            (Logger.mk 30 [])).handlers
      ∧ (setup_file_logger (fun s => s) "/var/log/app.log" Option.none
          (setup_file_logger (fun s => s) "/var/log/app.log" (Option.some 10)
            (Logger.mk 30 []))).handlers
        = [Handler.file "/var/log/app.log"]
      ∧ (setup_file_logger (fun s => s) "/var/log/app.log" Option.none
          (setup_file_logger (fun s => s) "/var/log/app.log" (Option.some 10)
            (Logger.mk 30 []))).handlers.countP Handler.isFileHandler
        = 1 :=
  attach_file_idempotent (fun s => s) "/var/log/app.log" (Option.some 10)
    Option.none 30 rfl

/-- C8: attaching a stream handler twice to the same logger leaves exactly
one attached stream handler, whatever the two stream arguments are; the
second call returns without modification. -/
theorem attach_stream_idempotent (s1 s2 l1 l2 : Option Nat) (lvl : Nat) :
    (setup_stream_logger s2 l2
        (setup_stream_logger s1 l1 (Logger.mk lvl []))).handlers
        = (setup_stream_logger s1 l1 (Logger.mk lvl [])).handlers
      ∧ (setup_stream_logger s2 l2
          (setup_stream_logger s1 l1
            (Logger.mk lvl []))).handlers.countP Handler.isStreamHandler
        = 1 := by
  have h1 : (setup_stream_logger s1 l1 (Logger.mk lvl [])).handlers
      = [Handler.stream (s1.getD stderrStreamId)] := by
    have := setup_stream_handlers_of_not_found s1 l1 (Logger.mk lvl []) rfl
    simpa using this
  have hf : (setup_stream_logger s1 l1
      (Logger.mk lvl [])).handlers.any Handler.isStreamHandler = true := by
    rw [h1]
    simp [Handler.isStreamHandler]
  have h2 := setup_stream_handlers_of_found s2 l2
    (setup_stream_logger s1 l1 (Logger.mk lvl [])) hf
  refine ⟨h2, ?_⟩
  rw [h2, h1]
  simp [List.countP_cons, List.countP_nil, Handler.isStreamHandler]

/-- C9: a mapped field (other than the timestamp and exception columns)
whose raw string value consists only of whitespace (or is empty)
translates to null; a string with any non-whitespace character passes
through unchanged. -/
theorem translate_whitespace_string (r : LogRecord) (attr : String)
    (s : String)
    (h1 : attr ≠ "created")
    (h2 : ¬(attr = "exc_info" ∨ attr = "exc_text"))
    (hget : r.getattr attr = Option.some (Value.str s)) :
    translateParam r attr =
      Except.ok (if s.data.all pyIsSpace then Param.null
        else Param.str s) := by
  cases hs : s.data.all pyIsSpace <;>
    simp [translateParam, hget, h1, h2, stripIsEmpty, hs]

/-- C9 witness: a whitespace-only field becomes null; the field holding
two-space-padded `ok` passes through unchanged. -/
theorem translate_whitespace_string_witness :
    translateParam spacesRecord "name" = Except.ok Param.null ∧
      translateParam spacesRecord "message"
        = Except.ok (Param.str "  ok  ") := by
  constructor
  · exact translate_whitespace_string spacesRecord "name" "   "
      (by decide) (by decide) (by decide)
  · exact translate_whitespace_string spacesRecord "message" "  ok  "
      (by decide) (by decide) (by decide)

/-- C10: because the stream duplicate scan tests only for stream-handler
type and file handlers are stream handlers, attaching a file handler and
then a stream handler leaves exactly one handler — the file handler — and
attaches no stream handler. -/
theorem attach_stream_noop_after_file (resolve : String → String)
    (p : String) (s l1 l2 : Option Nat) (lvl : Nat) :
    (setup_stream_logger s l2
        (setup_file_logger resolve p l1 (Logger.mk lvl []))).handlers
        = [Handler.file (resolve p)]
      ∧ (setup_stream_logger s l2
          (setup_file_logger resolve p l1
            (Logger.mk lvl []))).handlers.countP (fun h => match h with
          | Handler.stream _ => true
          | _ => false) = 0 := by
  have h1 : (setup_file_logger resolve p l1 (Logger.mk lvl [])).handlers
      = [Handler.file (resolve p)] := by
    have := setup_file_handlers_of_not_found resolve p l1 (Logger.mk lvl [])
      rfl
    simpa using this
  have hf : (setup_file_logger resolve p l1
      (Logger.mk lvl [])).handlers.any Handler.isStreamHandler = true := by
    rw [h1]
    simp [Handler.isStreamHandler]
  have h2 := setup_stream_handlers_of_found s l2
    (setup_file_logger resolve p l1 (Logger.mk lvl [])) hf
  refine ⟨h2.trans h1, ?_⟩
  rw [h2, h1]
  simp [List.countP_cons, List.countP_nil]

end Logutils
